import Mathlib

/-!
Verification of the emotionagotchi-app core: the creature-state transition
function (`src/utils/creatureState.ts`), the session coordinator
(`EmotionContext.addLog` together with the `handleAction` validation gate in
`src/app/page.tsx`), and the persistence gateway (`storageService`).

The transition function and the coordinator are embedded directly from the
TypeScript source.  The persistence gateway's implementation file
(`storageService.ts`) is absent from the sources (only its test suite is
present), so the gateway is modelled from the specification, as marked on
each of its definitions.
-/

/-- The two action tags, from the `EmotionAction` union type. -/
inductive EmotionAction where
  | expressed
  | suppressed
deriving DecidableEq, Repr

/-- The four animation labels of `CreatureState.animation`. -/
inductive Animation where
  | idle
  | grow
  | curl
  | celebrate
deriving DecidableEq, Repr

/-- `CreatureState` from the type definitions: brightness, size and an
animation label.  Brightness and size are JavaScript numbers used as
integers; they are embedded as `Int` so that out-of-range inputs can be
stated. -/
structure CreatureState where
  brightness : Int
  size : Int
  animation : Animation
deriving DecidableEq, Repr

/-- `true` exactly on the `idle` animation label. -/
def Animation.isIdle : Animation → Bool
  | .idle => true
  | _ => false

/-- `calculateNewState` from `src/utils/creatureState.ts`: expressed gives
brightness +5 and size +2, suppressed gives brightness -3 and size -1, both
bounded into [0, 100] by `Math.max(0, Math.min(100, _))`; the animation is
`celebrate` when the action is expressed and the new brightness is 100,
`grow` for any other expressed result, and `curl` for suppressed. -/
def calculateNewState (currentState : CreatureState) (action : EmotionAction) :
    CreatureState :=
  let brightnessChange : Int := if action = .expressed then 5 else -3
  let sizeChange : Int := if action = .expressed then 2 else -1
  let newBrightness := max 0 (min 100 (currentState.brightness + brightnessChange))
  let newSize := max 0 (min 100 (currentState.size + sizeChange))
  let animation : Animation :=
    if action = .expressed then
      (if newBrightness = 100 then .celebrate else .grow)
    else
      .curl
  { brightness := newBrightness, size := newSize, animation := animation }

/-- `getInitialState` from `src/utils/creatureState.ts`. -/
def getInitialState : CreatureState :=
  { brightness := 50, size := 50, animation := .idle }

/-- The clamp function as the specification words it:
`clamp(v, lo, hi) = max(lo, min(hi, v))`. -/
def clamp (v lo hi : Int) : Int := max lo (min hi v)

/-- The source's `Math.max(0, Math.min(100, v))` always lands in [0, 100]. -/
theorem clampZeroHundred_mem (v : Int) :
    0 ≤ max 0 (min 100 v) ∧ max 0 (min 100 v) ≤ (100 : Int) := by
  refine ⟨le_max_left 0 _, max_le (by norm_num) (min_le_left _ _)⟩

/-- A creature state with brightness and size inside [0, 100]. -/
def inBounds (s : CreatureState) : Prop :=
  0 ≤ s.brightness ∧ s.brightness ≤ 100 ∧ 0 ≤ s.size ∧ s.size ≤ 100

/-- One transition step lands in bounds, from any starting state. -/
theorem calculateNewState_inBounds (s : CreatureState) (a : EmotionAction) :
    inBounds (calculateNewState s a) := by
  obtain ⟨hb0, hb1⟩ := clampZeroHundred_mem (s.brightness + (if a = .expressed then 5 else -3))
  obtain ⟨hs0, hs1⟩ := clampZeroHundred_mem (s.size + (if a = .expressed then 2 else -1))
  cases a <;> exact ⟨hb0, hb1, hs0, hs1⟩

/-- Folding a whole action list keeps the state in bounds. -/
theorem foldl_calculateNewState_inBounds (l : List EmotionAction) (s : CreatureState)
    (hs : inBounds s) : inBounds (l.foldl calculateNewState s) := by
  induction l generalizing s with
  | nil => exact hs
  | cons a rest ih => exact ih _ (calculateNewState_inBounds s a)

/-- C1: for every CreatureState (any integer brightness and size, in or out of
[0,100]), the transition for `expressed` returns brightness
`clamp(brightness + 5, 0, 100)` and size `clamp(size + 2, 0, 100)`, and for
`suppressed` returns brightness `clamp(brightness - 3, 0, 100)` and size
`clamp(size - 1, 0, 100)`, with `clamp(v, lo, hi) = max(lo, min(hi, v))`;
being a total function of an arbitrary integer-valued state, it never fails
on out-of-range inputs. -/
theorem transition_clamps_brightness_and_size (s : CreatureState) :
    (calculateNewState s .expressed).brightness = clamp (s.brightness + 5) 0 100 ∧
    (calculateNewState s .expressed).size = clamp (s.size + 2) 0 100 ∧
    (calculateNewState s .suppressed).brightness = clamp (s.brightness - 3) 0 100 ∧
    (calculateNewState s .suppressed).size = clamp (s.size - 1) 0 100 := by
  refine ⟨?_, ?_, ?_, ?_⟩ <;> simp [calculateNewState, clamp, Int.sub_eq_add_neg]

/-- C2: the animation of the transition result is determined solely by the
action and the resulting brightness: `celebrate` when the action is expressed
and the resulting brightness is 100, `grow` when the action is expressed and
the resulting brightness is not 100 (equivalently, is below 100, since the
first conjunct shows the resulting brightness never exceeds 100), and `curl`
whenever the action is suppressed. -/
theorem transition_animation_rule (s : CreatureState) (a : EmotionAction) :
    (calculateNewState s a).brightness ≤ 100 ∧
    (calculateNewState s a).animation =
      (if a = .expressed then
        (if (calculateNewState s a).brightness = 100 then .celebrate else .grow)
      else .curl) := by
  refine ⟨(calculateNewState_inBounds s a).2.1, ?_⟩
  cases a <;> simp [calculateNewState]

/-- C3: starting from the default snapshot `{brightness := 50, size := 50,
animation := idle}`, after every step of any action sequence — i.e. after
every prefix, here every `take n` — brightness and size are within [0, 100]. -/
theorem creature_bounds_invariant (actions : List EmotionAction) (n : Nat) :
    inBounds ((actions.take n).foldl calculateNewState getInitialState) :=
  foldl_calculateNewState_inBounds _ _ (by constructor <;> simp [getInitialState])

/-- `EmotionLog` from the type definitions: id, text, action tag and a
millisecond timestamp. -/
structure EmotionLog where
  id : String
  text : String
  action : EmotionAction
  timestamp : Nat
deriving DecidableEq, Repr

/-- The in-memory session state owned by `EmotionProvider` in
`EmotionContext.tsx`: the log list, the creature state and the safety
score. -/
structure SessionState where
  logs : List EmotionLog
  creatureState : CreatureState
  safetyScore : Int
deriving DecidableEq, Repr

/-- One call made to `storageService` while processing an action; `addLog`
issues its writes in this order. -/
inductive PersistCall where
  | saveLogs (logs : List EmotionLog)
  | saveCreatureState (s : CreatureState)
  | saveSafetyScore (n : Int)
deriving DecidableEq, Repr

/-- `addLog` from `EmotionContext.tsx`: builds a new log from the text, the
action, the fresh id (`uuidv4()`) and the current time (`Date.now()`),
appends it to the log list, computes the next creature state with
`calculateNewState`, adds 1 to the safety score exactly when the action is
`expressed`, and persists the new logs, creature state and score, in that
order.  The fresh id and timestamp are passed as arguments; the emitted
persistence calls are returned alongside the new state. -/
def addLog (st : SessionState) (text : String) (action : EmotionAction)
    (id : String) (timestamp : Nat) : SessionState × List PersistCall :=
  let newLog : EmotionLog := { id := id, text := text, action := action,
                               timestamp := timestamp }
  let updatedLogs := st.logs ++ [newLog]
  let newCreatureState := calculateNewState st.creatureState action
  let newSafetyScore := if action = .expressed then st.safetyScore + 1 else st.safetyScore
  ({ logs := updatedLogs, creatureState := newCreatureState,
     safetyScore := newSafetyScore },
   [.saveLogs updatedLogs, .saveCreatureState newCreatureState,
    .saveSafetyScore newSafetyScore])

/-- The gate condition of `handleAction` in `src/app/page.tsx`:
`inputValue.trim().length === 0`.  Trimming surrounding whitespace leaves the
empty string exactly when every character of the input is whitespace, so the
condition is embedded in that executable form. -/
def trimmedEmpty (s : String) : Bool :=
  s.toList.all Char.isWhitespace

/-- `handleAction` from `src/app/page.tsx`, the validation gate in front of
`addLog`: when the input is empty after trimming it returns without calling
`addLog`, so nothing changes and nothing is persisted; otherwise it hands the
raw text to `addLog`. -/
def handleAction (st : SessionState) (inputValue : String) (action : EmotionAction)
    (id : String) (timestamp : Nat) : SessionState × List PersistCall :=
  if trimmedEmpty inputValue then (st, [])
  else addLog st inputValue action id timestamp

/-- One accepted user action as the coordinator receives it: the text, the
tag, and the fresh id and timestamp the coordinator drew for it. -/
structure ActionEntry where
  text : String
  action : EmotionAction
  id : String
  timestamp : Nat
deriving DecidableEq, Repr

/-- Processing a list of accepted actions through `addLog`, one after the
other. -/
def runSession (st : SessionState) : List ActionEntry → SessionState
  | [] => st
  | e :: rest => runSession (addLog st e.text e.action e.id e.timestamp).1 rest

/-- The session state at startup with empty storage: no logs, the default
creature snapshot, score 0. -/
def initialSession : SessionState :=
  { logs := [], creatureState := getInitialState, safetyScore := 0 }

/-- Number of `expressed` tags in an action list. -/
def countExpressed : List EmotionAction → Nat
  | [] => 0
  | a :: rest => (if a = .expressed then 1 else 0) + countExpressed rest

/-- The score after a whole run is the starting score plus the number of
expressed actions. -/
theorem runSession_safetyScore (entries : List ActionEntry) (st : SessionState) :
    (runSession st entries).safetyScore =
      st.safetyScore + (countExpressed (entries.map ActionEntry.action) : Int) := by
  induction entries generalizing st with
  | nil => simp [runSession, countExpressed]
  | cons e rest ih =>
      rw [runSession, ih]
      cases he : e.action
      · simp [addLog, countExpressed, he]
        ring
      · simp [addLog, countExpressed, he]

/-- C4: each `expressed` action adds exactly 1 to the safety score and each
`suppressed` action leaves it unchanged, so processing any sequence of
accepted actions from score 0 ends with the score equal to the number of
expressed actions in the sequence — in particular a non-negative integer. -/
theorem safety_score_accounting :
    (∀ (st : SessionState) (text id : String) (a : EmotionAction) (ts : Nat),
      (addLog st text a id ts).1.safetyScore =
        st.safetyScore + (if a = .expressed then 1 else 0)) ∧
    (∀ entries : List ActionEntry,
      (runSession initialSession entries).safetyScore =
        (countExpressed (entries.map ActionEntry.action) : Int)) := by
  constructor
  · intro st text id a ts
    cases a <;> simp [addLog]
  · intro entries
    rw [runSession_safetyScore]
    simp [initialSession]

/-- C5: when the text is empty after trimming, the coordinator-boundary
handler (`handleAction`, the single validation gate in front of `addLog`) is
a no-op: the session state — logs, creature state and safety score — is
returned unchanged and no persistence call is emitted. -/
theorem empty_input_rejected (st : SessionState) (text : String)
    (a : EmotionAction) (id : String) (ts : Nat)
    (h : trimmedEmpty text = true) :
    handleAction st text a id ts = (st, []) := by
  simp [handleAction, h]

/-- Witness for C5 at the all-whitespace input from the spec. -/
theorem empty_input_rejected_witness :
    trimmedEmpty "   " = true ∧
      handleAction initialSession "   " .expressed "id-1" 0 = (initialSession, []) :=
  ⟨by decide, empty_input_rejected initialSession "   " .expressed "id-1" 0 (by decide)⟩

/-- C6 fails as stated: the transition is not idempotent in general.  At the
default snapshot, one `expressed` action gives brightness 55, a second gives
60. -/
theorem transition_not_idempotent_counterexample :
    calculateNewState
        (calculateNewState { brightness := 50, size := 50, animation := .idle } .expressed)
        .expressed ≠
      calculateNewState { brightness := 50, size := 50, animation := .idle } .expressed := by
  decide

/-- C6 amended: the transition is a pure function (determinism is definitional
in this embedding), and it is idempotent at the ceiling: whenever one
`expressed` step saturates both brightness and size at 100 — in particular at
`{100, 100, celebrate}` — a further `expressed` step returns the same state. -/
theorem transition_idempotent_at_ceiling (s : CreatureState)
    (hb : (calculateNewState s .expressed).brightness = 100)
    (hs : (calculateNewState s .expressed).size = 100) :
    calculateNewState (calculateNewState s .expressed) .expressed =
      calculateNewState s .expressed := by
  have ha : (calculateNewState s .expressed).animation = .celebrate := by
    simp [calculateNewState] at hb ⊢
    simp [hb]
  have hstate : calculateNewState s .expressed =
      { brightness := 100, size := 100, animation := .celebrate } := by
    cases hcs : calculateNewState s .expressed
    simp_all
  rw [hstate]
  decide

/-- Witness for C6 amended at the spec's own scenario `{95, 98, grow}`. -/
theorem transition_idempotent_at_ceiling_witness :
    (calculateNewState { brightness := 95, size := 98, animation := .grow } .expressed).brightness = 100 ∧
    (calculateNewState { brightness := 95, size := 98, animation := .grow } .expressed).size = 100 ∧
    calculateNewState
        (calculateNewState { brightness := 95, size := 98, animation := .grow } .expressed)
        .expressed =
      calculateNewState { brightness := 95, size := 98, animation := .grow } .expressed :=
  ⟨by decide, by decide,
    transition_idempotent_at_ceiling { brightness := 95, size := 98, animation := .grow }
      (by decide) (by decide)⟩

/-- Modelled from the spec: the content stored under one record key of the
missing `storageService.ts`.  A key is either absent, holds a well-formed
serialization of a value of the record's type (`good`), or holds data that is
unreadable, unparseable or of the wrong shape (`bad`). -/
inductive Cell (α : Type) where
  | absent
  | good (a : α)
  | bad
deriving DecidableEq

/-- Modelled from the spec: the condition of the underlying storage when a
write is attempted — it succeeds, throws a generic error with some message,
or throws a quota-exceeded error. -/
inductive WriteMode where
  | ok
  | genericFail (msg : String)
  | quotaExceeded
deriving DecidableEq

/-- `Result` of a save operation, from the spec:
`{ success : bool, error : string | absent }`. -/
structure SaveResult where
  success : Bool
  error : Option String
deriving DecidableEq

/-- Modelled from the spec: the state the missing `storageService.ts` acts
on — the three record cells, the storage's current read/write condition, and
the gateway's retained most recent error message. -/
structure GatewayState where
  logsCell : Cell (List EmotionLog)
  creatureCell : Cell CreatureState
  safetyCell : Cell Int
  writeMode : WriteMode
  readFails : Bool
  lastError : Option String

/-- Modelled from the spec: the error message produced for a quota-exceeded
write; the spec requires only that it contain the substring
"Storage full". -/
def quotaMessage : String := "Storage full. Unable to save data."

/-- Modelled from the spec: `loadLogs` of the missing `storageService.ts` —
the stored log sequence in its stored order when it is well-formed, the safe
default `[]` when the key is absent, the data is corrupt, or reading
throws. -/
def loadLogs (g : GatewayState) : List EmotionLog :=
  if g.readFails then []
  else
    match g.logsCell with
    | .good l => l
    | _ => []

/-- Modelled from the spec: `loadCreatureState` of the missing
`storageService.ts` — the stored snapshot when well-formed, otherwise the
safe default `none` (absent). -/
def loadCreatureState (g : GatewayState) : Option CreatureState :=
  if g.readFails then none
  else
    match g.creatureCell with
    | .good s => some s
    | _ => none

/-- Modelled from the spec: `loadSafetyScore` of the missing
`storageService.ts` — the stored score when numeric, otherwise the safe
default 0. -/
def loadSafetyScore (g : GatewayState) : Int :=
  if g.readFails then 0
  else
    match g.safetyCell with
    | .good n => n
    | _ => 0

/-- Modelled from the spec: `saveLogs` of the missing `storageService.ts` —
on success it replaces the logs record and reports success; when the write
throws it catches, reports `{success := false, error := msg}` and retains the
message as the last error, with the quota message for a quota-exceeded
condition. -/
def saveLogs (g : GatewayState) (ls : List EmotionLog) : GatewayState × SaveResult :=
  match g.writeMode with
  | .ok =>
      (⟨Cell.good ls, g.creatureCell, g.safetyCell, g.writeMode, g.readFails, g.lastError⟩,
       ⟨true, none⟩)
  | .genericFail m =>
      (⟨g.logsCell, g.creatureCell, g.safetyCell, g.writeMode, g.readFails, some m⟩,
       ⟨false, some m⟩)
  | .quotaExceeded =>
      (⟨g.logsCell, g.creatureCell, g.safetyCell, g.writeMode, g.readFails, some quotaMessage⟩,
       ⟨false, some quotaMessage⟩)

/-- Modelled from the spec: `saveCreatureState` of the missing
`storageService.ts`, with the same failure handling as `saveLogs`. -/
def saveCreatureState (g : GatewayState) (s : CreatureState) : GatewayState × SaveResult :=
  match g.writeMode with
  | .ok =>
      (⟨g.logsCell, Cell.good s, g.safetyCell, g.writeMode, g.readFails, g.lastError⟩,
       ⟨true, none⟩)
  | .genericFail m =>
      (⟨g.logsCell, g.creatureCell, g.safetyCell, g.writeMode, g.readFails, some m⟩,
       ⟨false, some m⟩)
  | .quotaExceeded =>
      (⟨g.logsCell, g.creatureCell, g.safetyCell, g.writeMode, g.readFails, some quotaMessage⟩,
       ⟨false, some quotaMessage⟩)

/-- Modelled from the spec: `saveSafetyScore` of the missing
`storageService.ts`, with the same failure handling as `saveLogs`. -/
def saveSafetyScore (g : GatewayState) (n : Int) : GatewayState × SaveResult :=
  match g.writeMode with
  | .ok =>
      (⟨g.logsCell, g.creatureCell, Cell.good n, g.writeMode, g.readFails, g.lastError⟩,
       ⟨true, none⟩)
  | .genericFail m =>
      (⟨g.logsCell, g.creatureCell, g.safetyCell, g.writeMode, g.readFails, some m⟩,
       ⟨false, some m⟩)
  | .quotaExceeded =>
      (⟨g.logsCell, g.creatureCell, g.safetyCell, g.writeMode, g.readFails, some quotaMessage⟩,
       ⟨false, some quotaMessage⟩)

/-- Modelled from the spec: `getLastError` of the missing
`storageService.ts` — the retained most recent error message. -/
def getLastError (g : GatewayState) : Option String := g.lastError

/-- `true` when the first character list occurs contiguously inside the
second. -/
def listContainsSub (pat : List Char) : List Char → Bool
  | [] => pat.isEmpty
  | c :: rest => pat.isPrefixOf (c :: rest) || listContainsSub pat rest

/-- `true` when an error message is present and contains the substring
"Storage full". -/
def containsStorageFull : Option String → Bool
  | none => false
  | some m => listContainsSub "Storage full".toList m.toList

/-- C7 (gateway modelled from the spec): saving through the gateway under
working storage and then immediately loading that record kind returns a
value equal to the original — the log sequence comes back as the very list
that was saved, so its stored insertion order is preserved; the creature
snapshot comes back present and equal; the score comes back equal. -/
theorem storage_round_trip (lc : Cell (List EmotionLog)) (cc : Cell CreatureState)
    (sc : Cell Int) (le : Option String) (ls : List EmotionLog)
    (s : CreatureState) (n : Int) :
    loadLogs (saveLogs ⟨lc, cc, sc, .ok, false, le⟩ ls).1 = ls ∧
    loadCreatureState (saveCreatureState ⟨lc, cc, sc, .ok, false, le⟩ s).1 = some s ∧
    loadSafetyScore (saveSafetyScore ⟨lc, cc, sc, .ok, false, le⟩ n).1 = n :=
  ⟨rfl, rfl, rfl⟩

/-- C8 (gateway modelled from the spec): a corrupt cell under one record's
key makes that kind's load return its safe default (`[]`, `none`, `0`)
without failing; so does storage that throws on read; and each kind's load
result is unchanged when another kind's cell is replaced by anything — the
six final equations cover all six ordered pairs of distinct record kinds. -/
theorem storage_corruption_isolation
    (lc lc' : Cell (List EmotionLog)) (cc cc' : Cell CreatureState)
    (sc sc' : Cell Int) (wm : WriteMode) (le : Option String) :
    loadLogs ⟨.bad, cc, sc, wm, false, le⟩ = [] ∧
    loadCreatureState ⟨lc, .bad, sc, wm, false, le⟩ = none ∧
    loadSafetyScore ⟨lc, cc, .bad, wm, false, le⟩ = 0 ∧
    loadLogs ⟨lc, cc, sc, wm, true, le⟩ = [] ∧
    loadCreatureState ⟨lc, cc, sc, wm, true, le⟩ = none ∧
    loadSafetyScore ⟨lc, cc, sc, wm, true, le⟩ = 0 ∧
    loadCreatureState ⟨lc, cc, sc, wm, false, le⟩ = loadCreatureState ⟨lc', cc, sc, wm, false, le⟩ ∧
    loadSafetyScore ⟨lc, cc, sc, wm, false, le⟩ = loadSafetyScore ⟨lc', cc, sc, wm, false, le⟩ ∧
    loadLogs ⟨lc, cc, sc, wm, false, le⟩ = loadLogs ⟨lc, cc', sc, wm, false, le⟩ ∧
    loadSafetyScore ⟨lc, cc, sc, wm, false, le⟩ = loadSafetyScore ⟨lc, cc', sc, wm, false, le⟩ ∧
    loadLogs ⟨lc, cc, sc, wm, false, le⟩ = loadLogs ⟨lc, cc, sc', wm, false, le⟩ ∧
    loadCreatureState ⟨lc, cc, sc, wm, false, le⟩ = loadCreatureState ⟨lc, cc, sc', wm, false, le⟩ :=
  ⟨rfl, rfl, rfl, rfl, rfl, rfl, rfl, rfl, rfl, rfl, rfl, rfl⟩

/-- C9 (gateway modelled from the spec): every save whose underlying write
throws returns `{success := false, error := msg}` without failing and
retains that message as the most recent error retrievable via
`getLastError`, for each of the three record kinds; under a quota-exceeded
condition each of the three saves fails with an error message containing the
substring "Storage full", again retained as the last error. -/
theorem storage_save_failure_reporting
    (lc : Cell (List EmotionLog)) (cc : Cell CreatureState) (sc : Cell Int)
    (rf : Bool) (le : Option String) (msg : String)
    (ls : List EmotionLog) (s : CreatureState) (n : Int) :
    (saveLogs ⟨lc, cc, sc, .genericFail msg, rf, le⟩ ls).2 = ⟨false, some msg⟩ ∧
    getLastError (saveLogs ⟨lc, cc, sc, .genericFail msg, rf, le⟩ ls).1 = some msg ∧
    (saveCreatureState ⟨lc, cc, sc, .genericFail msg, rf, le⟩ s).2 = ⟨false, some msg⟩ ∧
    getLastError (saveCreatureState ⟨lc, cc, sc, .genericFail msg, rf, le⟩ s).1 = some msg ∧
    (saveSafetyScore ⟨lc, cc, sc, .genericFail msg, rf, le⟩ n).2 = ⟨false, some msg⟩ ∧
    getLastError (saveSafetyScore ⟨lc, cc, sc, .genericFail msg, rf, le⟩ n).1 = some msg ∧
    (saveLogs ⟨lc, cc, sc, .quotaExceeded, rf, le⟩ ls).2.success = false ∧
    containsStorageFull (saveLogs ⟨lc, cc, sc, .quotaExceeded, rf, le⟩ ls).2.error = true ∧
    getLastError (saveLogs ⟨lc, cc, sc, .quotaExceeded, rf, le⟩ ls).1 =
      (saveLogs ⟨lc, cc, sc, .quotaExceeded, rf, le⟩ ls).2.error ∧
    (saveCreatureState ⟨lc, cc, sc, .quotaExceeded, rf, le⟩ s).2.success = false ∧
    containsStorageFull (saveCreatureState ⟨lc, cc, sc, .quotaExceeded, rf, le⟩ s).2.error = true ∧
    getLastError (saveCreatureState ⟨lc, cc, sc, .quotaExceeded, rf, le⟩ s).1 =
      (saveCreatureState ⟨lc, cc, sc, .quotaExceeded, rf, le⟩ s).2.error ∧
    (saveSafetyScore ⟨lc, cc, sc, .quotaExceeded, rf, le⟩ n).2.success = false ∧
    containsStorageFull (saveSafetyScore ⟨lc, cc, sc, .quotaExceeded, rf, le⟩ n).2.error = true ∧
    getLastError (saveSafetyScore ⟨lc, cc, sc, .quotaExceeded, rf, le⟩ n).1 =
      (saveSafetyScore ⟨lc, cc, sc, .quotaExceeded, rf, le⟩ n).2.error :=
  ⟨rfl, rfl, rfl, rfl, rfl, rfl, rfl, rfl, rfl, rfl, rfl, rfl, rfl, rfl, rfl⟩

/-- C10: the transition result is a function of the input brightness, the
input size and the action only — two states agreeing on brightness and size
but with arbitrary animations transition identically — and its animation is
never `idle`, so `idle` can only occur as the untransitioned initial
state. -/
theorem transition_ignores_animation (b sz : Int) (a₁ a₂ : Animation)
    (act : EmotionAction) :
    calculateNewState ⟨b, sz, a₁⟩ act = calculateNewState ⟨b, sz, a₂⟩ act ∧
    Animation.isIdle (calculateNewState ⟨b, sz, a₁⟩ act).animation = false := by
  refine ⟨rfl, ?_⟩
  cases act
  · simp only [calculateNewState]
    by_cases h : max 0 (min 100 (b + 5)) = (100 : Int)
    · simp [h, Animation.isIdle]
    · simp [h, Animation.isIdle]
  · rfl

example : calculateNewState getInitialState .expressed =
    { brightness := 55, size := 52, animation := .grow } := by decide

example : calculateNewState { brightness := 95, size := 98, animation := .grow } .expressed =
    { brightness := 100, size := 100, animation := .celebrate } := by decide

example : calculateNewState { brightness := 2, size := 0, animation := .grow } .suppressed =
    { brightness := 0, size := 0, animation := .curl } := by decide
